import Mathlib

/-!
Verification development for the VoiceLock module (`modules/voicelock.py`).

The Python module is shallowly embedded as follows.

* Python floats are modelled as exact numbers: configuration values, sample
  values and timestamps are rationals (every IEEE double is a rational), and
  the one genuinely irrational quantity — the cosine similarity, which divides
  by a product of Euclidean norms — lives in `ℝ`.
* The one place where IEEE semantics differs observably from exact real
  arithmetic is the degenerate division `0.0 / 0.0` in `verify`, whose float
  result is NaN; a NaN similarity is modelled as `none : Option ℝ`, and the
  comparison `sim < THRESH` is false for NaN, exactly as in IEEE.
* The module never executes `import time`, yet `_check_replay` and `verify`
  both evaluate `time.time()`.  In Python the global name `time` is resolved
  dynamically at each call, so we model the binding of that name as a
  parameter `clock : Option ℚ`: `none` is the module as shipped (the lookup
  raises `NameError`), `some t` is an environment in which the name has been
  bound to a working clock returning `t`.
* Exceptions are modelled with `Except PyErr`; a Python function that
  swallows exceptions with a bare `except:` is a total Lean function.
* The JSON backing file is a `FileState` (missing, malformed, or holding a
  database); the relational backend and an unreadable store are covered by
  letting the load step of `_check_replay`/`verify` be an arbitrary
  `Except PyErr DB` value.
-/

namespace VoiceLock

/-- Python exception classes that the embedded code can raise. -/
inductive PyErr
  | nameError
  | valueError
  | jsonError
  | sqliteError
  deriving DecidableEq, Repr

/-- One credential record, the value of `db[user_id]` in the Python dict:
`embed` is the stored voiceprint, `enrolled` the ISO timestamp string, and
`lastUsed` models the optional `"last_used"` key (`db[u].get("last_used", 0)`
defaults to `0` when the key is absent). -/
structure Rec where
  embed : List ℚ
  enrolled : String
  lastUsed : Option ℚ
  deriving DecidableEq, Repr

/-- The in-memory database: a Python dict from user id to record, modelled as
an insertion-ordered association list with unique keys. -/
def DB : Type := List (String × Rec)

instance : DecidableEq DB := by
  unfold DB
  infer_instance

/-- Dict lookup `db[u]` / membership `u in db`. -/
def dbFind : DB → String → Option Rec
  | [], _ => none
  | (k, r) :: rest, u => if k = u then some r else dbFind rest u

/-- Dict update `db[u] = r` (replace in place; appends when the key is new). -/
def dbSet : DB → String → Rec → DB
  | [], u, r => [(u, r)]
  | (k, r0) :: rest, u, r =>
      if k = u then (k, r) :: rest else (k, r0) :: dbSet rest u r

/-- Dict deletion `del db[u]`. -/
def dbErase : DB → String → DB
  | [], _ => []
  | (k, r) :: rest, u => if k = u then rest else (k, r) :: dbErase rest u

/-- State of the JSON backing file `voicelock_db.json`. -/
inductive FileState
  | missing
  | malformed
  | good (db : DB)
  deriving DecidableEq

/-- `_load_json`: returns `{}` when the file is absent, and — because the
`json.load` call sits under a bare `except` returning `{}` — also returns the
empty dict when the file is malformed or unreadable.  It never raises. -/
def loadJson : FileState → DB
  | .missing => []
  | .malformed => []
  | .good db => db

/-- `list_users`: loads the JSON store and returns its keys (the JSON path of
the loader never raises, so the `except` branch is dead for this backend). -/
def listUsers (fs : FileState) : List String :=
  (loadJson fs).map Prod.fst

/-- `delete_user`: removes the record and saves when the user exists, prints
`User not found.` otherwise.  The Python function has no `return` statement,
so its value is `None` in every case, modelled as `none : Option Bool`.
Result: (returned value, backing file afterwards, printed lines). -/
def deleteUser (fs : FileState) (user : String) : Option Bool × FileState × List String :=
  let db := loadJson fs
  match dbFind db user with
  | some _ => (none, .good (dbErase db user), ["DELETED: " ++ user])
  | none => (none, fs, ["User not found."])

/-- `_check_replay user_id timestamp` (the `timestamp` argument is ignored by
the Python code, which calls `time.time()` again internally).

Parameters: `antiReplay` the `ANTI_REPLAY` setting, `replayAge` the
`REPLAY_AGE` window, `load` the result of re-loading the store inside the
`try` block (an exception there is swallowed), `clock` the binding of the
global name `time` (see the module docstring), `saveRaises` whether the
`_save_db` call raises (only possible on the relational backend; the raise is
swallowed and the write is not committed).

Result: (returned boolean, the database written by `_save_db`, or `none` when
no durable write happened). -/
def checkReplay (antiReplay : Bool) (replayAge : ℚ) (load : Except PyErr DB)
    (clock : Option ℚ) (saveRaises : Bool) (user : String) : Bool × Option DB :=
  if !antiReplay then (true, none)
  else
    match load with
    | .error _ => (true, none)
    | .ok db =>
      match dbFind db user with
      | none => (true, none)
      | some r =>
        match clock with
        | none => (true, none)
        | some now =>
          if now - r.lastUsed.getD 0 < replayAge then (false, none)
          else if saveRaises then
            (true, none)
          else
            (true, some (dbSet db user { r with lastUsed := some now }))

/-- Dot product of two equal-length sample vectors. -/
def dotQ (a b : List ℚ) : ℚ :=
  (List.zipWith (fun x y => x * y) a b).sum

/-- Euclidean norm `np.linalg.norm a = Real.sqrt (a ⬝ a)`. -/
noncomputable def normR (a : List ℚ) : ℝ :=
  Real.sqrt ((dotQ a a : ℚ) : ℝ)

/-- The similarity expression of `verify`:
`np.dot(saved, embed) / (np.linalg.norm(saved) * np.linalg.norm(embed))`.
`np.dot` raises `ValueError` on 1-D shape mismatch.  When either norm is zero
the dot product is zero as well, so the float division is `0.0 / 0.0 = NaN`,
modelled as `none`. -/
noncomputable def npCosSim (a b : List ℚ) : Except PyErr (Option ℝ) :=
  if a.length ≠ b.length then .error .valueError
  else if dotQ a a = 0 ∨ dotQ b b = 0 then .ok none
  else .ok (some (((dotQ a b : ℚ) : ℝ) / (normR a * normR b)))

/-- The test `sim < THRESH` of `verify`; a NaN similarity compares false. -/
noncomputable def simBelow (s : Option ℝ) (t : ℚ) : Bool :=
  match s with
  | none => false
  | some x => if x < (t : ℝ) then true else false

/-- `verify wav user_id`.  The embedding step `get_embedding wav` is the
pluggable acoustic model; only its result matters here, so it enters as
`embedRes : Option (List ℚ)` (`none` when the embedding failed).  `load` is
the store read (`_load_json` never raises; the relational loader may), made
once here and once again inside `_check_replay`.  `clock` is the binding of
the name `time`: the call `_check_replay(user_id, time.time())` evaluates
`time.time()` in the scope of `verify`, outside any handler, so an unbound
name raises `NameError` out of `verify`.

Result: `Except` of (returned boolean, durable write of the replay check). -/
noncomputable def verify (thresh replayAge : ℚ) (antiReplay : Bool)
    (load : Except PyErr DB) (clock : Option ℚ) (saveRaises : Bool)
    (embedRes : Option (List ℚ)) (user : String) :
    Except PyErr (Bool × Option DB) :=
  match embedRes with
  | none => .ok (false, none)
  | some embed =>
    match load with
    | .error e => .error e
    | .ok db =>
      match dbFind db user with
      | none => .ok (false, none)
      | some r =>
        match npCosSim r.embed embed with
        | .error e => .error e
        | .ok sim =>
          if simBelow sim thresh then .ok (false, none)
          else
            match clock with
            | none => .error .nameError
            | some t =>
              let rc := checkReplay antiReplay replayAge load (some t) saveRaises user
              .ok (rc.1, rc.2)

/-- `_get_phrase`: three random vocabulary words in `random` mode, otherwise
the configured string itself is the fixed phrase. -/
def getPhrase (phraseMode : String) (randWords : List String) : String :=
  if phraseMode = "random" then String.intercalate " " randWords else phraseMode

/-- Observable outcome of one run of a `@gate`-wrapped function. -/
structure GateResult (α : Type) where
  result : Option α
  invoked : Bool
  captureAttempted : Bool
  log : List String
  deriving Repr

/-- One run of the wrapper produced by `gate(user_id)` around an action.

`response` is the string typed at `input("Press Enter after speaking...")`;
the Python code discards that value without inspecting it.  `recorded` is
the result of `_record()` (`none` when the device errored, in which case
`_record` itself printed `Recording failed`).  `embedF` is `get_embedding`.
The action is modelled as a pure value `action` returned when invoked. -/
noncomputable def gateRun {α : Type} (liveness : Bool) (phrase response : String)
    (recorded : Option (List ℚ)) (embedF : List ℚ → Option (List ℚ))
    (thresh replayAge : ℚ) (antiReplay : Bool) (load : Except PyErr DB)
    (clock : Option ℚ) (saveRaises : Bool) (user : String) (action : α) :
    GateResult α :=
  let log0 : List String := if liveness then ["Say: " ++ phrase] else []
  let _ := response
  match recorded with
  | none => ⟨none, false, true, log0 ++ ["Recording failed"]⟩
  | some wav =>
    match verify thresh replayAge antiReplay load clock saveRaises (embedF wav) user with
    | .error _ => ⟨none, false, true, log0 ++ ["GATE ERROR"]⟩
    | .ok (true, _) => ⟨some action, true, true, log0 ++ ["ACCESS GRANTED: " ++ user]⟩
    | .ok (false, _) => ⟨none, false, true, log0 ++ ["ACCESS DENIED"]⟩

/-- A denial was reported on the gate's output: one of the failure messages
printed by `_record` (`Recording failed`), the catch-all handler
(`GATE ERROR`), or the verification branch (`ACCESS DENIED`) appears. -/
def denialReported (log : List String) : Prop :=
  "Recording failed" ∈ log ∨ "GATE ERROR" ∈ log ∨ "ACCESS DENIED" ∈ log

/-- C1 (amended): with liveness enabled the gate presents the phrase and
waits for an acknowledgement, but it never validates the typed response
against the challenge — the run is identical for every response string, and
audio capture is attempted regardless of the response. -/
theorem c1_gate_ignores_liveness_response {α : Type} (liveness : Bool)
    (phrase r1 r2 : String) (recorded : Option (List ℚ))
    (embedF : List ℚ → Option (List ℚ)) (thresh age : ℚ) (ar : Bool)
    (load : Except PyErr DB) (clock : Option ℚ) (sr : Bool) (user : String)
    (action : α) :
    gateRun liveness phrase r1 recorded embedF thresh age ar load clock sr user action
      = gateRun liveness phrase r2 recorded embedF thresh age ar load clock sr user action ∧
    (gateRun liveness phrase r1 recorded embedF thresh age ar load clock sr user action).captureAttempted
      = true := by
  refine ⟨rfl, ?_⟩
  unfold gateRun
  cases recorded with
  | none => rfl
  | some wav =>
    rcases hv : verify thresh age ar load clock sr (embedF wav) user with e | ⟨b, d⟩
    · simp [hv]
    · cases b <;> simp [hv]

/-- C1 counterexample: liveness enabled with the fixed phrase
`fixed-phrase-x`, the human types the non-matching response `wrong`, and yet
the gate captures audio, the voice matches, and access is granted — there is
no `LivenessFailed` short-circuit before capture as the claim states. -/
theorem c1_wrong_response_still_granted :
    gateRun true "fixed-phrase-x" "wrong" (some [1, 0]) (fun w => some w)
        (4/5) 60 true (.ok [("lyle", ⟨[1, 0], "2025-01-01", some 0⟩)])
        (some 1000) false "lyle" (42 : ℕ)
      = ⟨some 42, true, true, ["Say: fixed-phrase-x", "ACCESS GRANTED: lyle"]⟩ := by
  simp [gateRun, verify, dbFind, npCosSim, dotQ, normR, simBelow, checkReplay, dbSet]
  norm_num [Real.sqrt_one]

/-- C2 (amended): once the similarity is computed and the replay guard
approves, `verify` returns a match exactly when the threshold is less than
OR EQUAL to the similarity — the code rejects only on `sim < THRESH`, so a
tie at exactly the threshold is accepted, not rejected. -/
theorem c2_match_iff_threshold_le_similarity (thresh age : ℚ) (ar sr : Bool)
    (db : DB) (t : ℚ) (u : String) (r : Rec) (e : List ℚ) (s : ℝ)
    (w : Option DB)
    (hfind : dbFind db u = some r)
    (hsim : npCosSim r.embed e = .ok (some s))
    (hrc : checkReplay ar age (.ok db) (some t) sr u = (true, w)) :
    verify thresh age ar (.ok db) (some t) sr (some e) u = .ok (true, w)
      ↔ (thresh : ℝ) ≤ s := by
  by_cases h : s < (thresh : ℝ)
  · simp [verify, hfind, hsim, simBelow, h, not_le.mpr h]
  · simp [verify, hfind, hsim, simBelow, h, hrc, not_lt.mp h]

/-- C2 counterexample: stored voiceprint `[4, 3]`, candidate `[1, 0]`, so the
cosine similarity is exactly `4/5`, equal to the default threshold `4/5`;
the claim demands `NoMatch`, but `verify` returns a match (and performs the
replay timestamp update). -/
theorem c2_tie_at_threshold_matches :
    verify (4/5) 60 true (.ok [("lyle", ⟨[4, 3], "2025-01-01", some 0⟩)])
        (some 1000) false (some [1, 0]) "lyle"
      = .ok (true, some [("lyle", ⟨[4, 3], "2025-01-01", some 1000⟩)]) := by
  have h25 : Real.sqrt 25 = 5 := by
    rw [show (25:ℝ) = 5^2 by norm_num, Real.sqrt_sq (by norm_num : (0:ℝ) ≤ 5)]
  simp [verify, dbFind, npCosSim, dotQ, normR, simBelow, checkReplay, dbSet, h25,
    Real.sqrt_one]
  norm_num [h25]

/-- C2 witness: a concrete tie at threshold `3/5` (stored `[3, 4]`,
candidate `[1, 0]`, similarity `3/5`) where the amended theorem yields a
match. -/
theorem c2_match_iff_threshold_le_similarity_witness :
    verify (3/5) 60 true (.ok [("lyle", ⟨[3, 4], "2025-01-01", some 0⟩)])
        (some 1000) false (some [1, 0]) "lyle"
      = .ok (true, some [("lyle", ⟨[3, 4], "2025-01-01", some 1000⟩)]) := by
  have h25 : Real.sqrt 25 = 5 := by
    rw [show (25:ℝ) = 5^2 by norm_num, Real.sqrt_sq (by norm_num : (0:ℝ) ≤ 5)]
  have hsim : npCosSim [3, 4] [1, 0] = .ok (some ((3:ℝ)/5)) := by
    simp [npCosSim, dotQ, normR]
    norm_num [h25, Real.sqrt_one]
  have hrc : checkReplay true 60 (.ok [("lyle", ⟨[3, 4], "2025-01-01", some 0⟩)])
      (some 1000) false "lyle"
      = (true, some [("lyle", ⟨[3, 4], "2025-01-01", some 1000⟩)]) := by
    simp [checkReplay, dbFind, dbSet]
    norm_num
  exact (c2_match_iff_threshold_le_similarity (3/5) 60 true false
    [("lyle", ⟨[3, 4], "2025-01-01", some 0⟩)] 1000 "lyle"
    ⟨[3, 4], "2025-01-01", some 0⟩ [1, 0] ((3:ℝ)/5)
    (some [("lyle", ⟨[3, 4], "2025-01-01", some 1000⟩)]) rfl hsim hrc).mpr (by norm_num)

/-- C3 (code bug): in the module as shipped the global name `time` is never
bound (`import time` is missing), so every execution of `_check_replay`
raises `NameError` at `now = time.time()`, the bare `except` swallows it,
and the check returns `True` without ever blocking an attempt inside the
window and without ever updating `last_used` — for every window, store
content, save behaviour and identity. -/
theorem c3_replay_check_never_blocks (age : ℚ) (load : Except PyErr DB)
    (sr : Bool) (u : String) :
    checkReplay true age load none sr u = (true, none) := by
  cases load with
  | error e => rfl
  | ok db => rcases hdb : dbFind db u with _ | r <;> simp [checkReplay, hdb]

/-- C4: a `Blocked` outcome of the replay check performs no durable write:
whenever `_check_replay` returns `False`, the `db[user]["last_used"] = now`
update and the `_save_db` call are not reached, so the stored timestamp is
exactly what it was before the attempt. -/
theorem c4_blocked_replay_leaves_store_unchanged (ar : Bool) (age : ℚ)
    (load : Except PyErr DB) (clock : Option ℚ) (sr : Bool) (u : String)
    (h : (checkReplay ar age load clock sr u).1 = false) :
    (checkReplay ar age load clock sr u).2 = none := by
  cases ar with
  | false => simp [checkReplay] at h
  | true =>
    cases load with
    | error e => simp [checkReplay] at h
    | ok db =>
      rcases hdb : dbFind db u with _ | r
      · simp [checkReplay, hdb] at h
      · cases clock with
        | none => simp [checkReplay, hdb] at h
        | some now =>
          by_cases hb : now - r.lastUsed.getD 0 < age
          · simp [checkReplay, hdb, hb]
          · cases sr <;> simp [checkReplay, hdb, hb] at h

/-- C4 witness: with a working clock, identity `lyle` last allowed at 100 is
blocked at 110 (inside the 60 second window) and the store is not written. -/
theorem c4_blocked_replay_leaves_store_unchanged_witness :
    (checkReplay true 60 (.ok [("lyle", ⟨[4, 3], "2025-01-01", some 100⟩)])
        (some 110) false "lyle").2 = none :=
  c4_blocked_replay_leaves_store_unchanged true 60 _ _ false "lyle"
    (by simp [checkReplay, dbFind]; norm_num)

/-- C5: the gate invokes the protected action exactly when capture succeeded
and `verify` returned `True` (which itself requires the embedding, the
lookup, the threshold test and the replay check to pass); on every other
outcome the action is not invoked, the caller receives `None`, and a denial
message is part of the observable output.  The action's result reaches the
caller only on the all-pass path. -/
theorem c5_gate_invokes_action_iff_all_stages_pass {α : Type} (liveness : Bool)
    (phrase response : String) (recorded : Option (List ℚ))
    (embedF : List ℚ → Option (List ℚ)) (thresh age : ℚ) (ar : Bool)
    (load : Except PyErr DB) (clock : Option ℚ) (sr : Bool) (user : String)
    (action : α) :
    ((gateRun liveness phrase response recorded embedF thresh age ar load clock sr user action).invoked = true
      ↔ ∃ wav w, recorded = some wav ∧
          verify thresh age ar load clock sr (embedF wav) user = .ok (true, w)) ∧
    ((gateRun liveness phrase response recorded embedF thresh age ar load clock sr user action).invoked = false →
      (gateRun liveness phrase response recorded embedF thresh age ar load clock sr user action).result = none ∧
      denialReported (gateRun liveness phrase response recorded embedF thresh age ar load clock sr user action).log) ∧
    ((gateRun liveness phrase response recorded embedF thresh age ar load clock sr user action).invoked = true →
      (gateRun liveness phrase response recorded embedF thresh age ar load clock sr user action).result = some action) := by
  cases recorded with
  | none => simp [gateRun, denialReported]
  | some wav =>
    rcases hv : verify thresh age ar load clock sr (embedF wav) user with e | ⟨b, d⟩
    · simp [gateRun, hv, denialReported]
    · cases b <;> simp [gateRun, hv, denialReported]

/-- C5 witness: a run whose capture stage fails is not invoked, returns
`None`, and reports a denial. -/
theorem c5_gate_invokes_action_iff_all_stages_pass_witness :
    (gateRun true "phrase" "resp" none (fun _ => none) (4/5) 60 true (.ok [])
        none false "lyle" (42 : ℕ)).result = none ∧
    denialReported (gateRun true "phrase" "resp" none (fun _ => none) (4/5) 60 true (.ok [])
        none false "lyle" (42 : ℕ)).log :=
  (c5_gate_invokes_action_iff_all_stages_pass true "phrase" "resp" none
      (fun _ => none) (4/5) 60 true (.ok []) none false "lyle" 42).2.1 rfl

/-- C6 (amended): when either of the two voiceprints — the stored one or the
candidate — has zero Euclidean norm, the code still evaluates
`dot / (norm * norm)`; the float result of that degenerate division is NaN,
the rejection test `sim < THRESH` is false for NaN, and so — far from a
`DegenerateVector` denial, which does not exist in the code — the attempt
passes the threshold stage and succeeds whenever the replay guard
approves. -/
theorem c6_zero_norm_passes_threshold (thresh age : ℚ) (ar sr : Bool)
    (db : DB) (t : ℚ) (u : String) (r : Rec) (e : List ℚ) (w : Option DB)
    (hfind : dbFind db u = some r)
    (hlen : r.embed.length = e.length)
    (hdeg : dotQ r.embed r.embed = 0 ∨ dotQ e e = 0)
    (hrc : checkReplay ar age (.ok db) (some t) sr u = (true, w)) :
    verify thresh age ar (.ok db) (some t) sr (some e) u = .ok (true, w) := by
  have hsim : npCosSim r.embed e = .ok none := by
    unfold npCosSim
    rw [if_neg (by simp [hlen]), if_pos hdeg]
  simp [verify, hfind, hsim, simBelow, hrc]

/-- C6 counterexample: identity `lyle` enrolled with the zero voiceprint
`[0, 0]`; the claim demands `Denied(DegenerateVector)`, but `verify` accepts
the attempt and updates the replay timestamp. -/
theorem c6_zero_norm_vector_granted :
    verify (4/5) 60 true (.ok [("lyle", ⟨[0, 0], "2025-01-01", some 0⟩)])
        (some 1000) false (some [1, 2]) "lyle"
      = .ok (true, some [("lyle", ⟨[0, 0], "2025-01-01", some 1000⟩)]) := by
  simp [verify, dbFind, npCosSim, dotQ, simBelow, checkReplay, dbSet]
  norm_num

/-- C6 witness: the candidate-zero-norm side of the disjunction — stored
voiceprint `[1, 0]` is non-degenerate, the candidate is the zero vector
`[0, 0]`, and the attempt is still accepted via the amended theorem. -/
theorem c6_zero_norm_passes_threshold_witness :
    verify (4/5) 60 true (.ok [("lyle", ⟨[1, 0], "2025-01-01", some 10⟩)])
        (some 500) false (some [0, 0]) "lyle"
      = .ok (true, some [("lyle", ⟨[1, 0], "2025-01-01", some 500⟩)]) := by
  have hrc : checkReplay true 60 (.ok [("lyle", ⟨[1, 0], "2025-01-01", some 10⟩)])
      (some 500) false "lyle"
      = (true, some [("lyle", ⟨[1, 0], "2025-01-01", some 500⟩)]) := by
    simp [checkReplay, dbFind, dbSet]
    norm_num
  exact c6_zero_norm_passes_threshold (4/5) 60 true false
    [("lyle", ⟨[1, 0], "2025-01-01", some 10⟩)] 500 "lyle"
    ⟨[1, 0], "2025-01-01", some 10⟩ [0, 0]
    (some [("lyle", ⟨[1, 0], "2025-01-01", some 500⟩)])
    rfl rfl (Or.inr (by norm_num [dotQ])) hrc

/-- C7 (amended): on voiceprints of differing dimensionality `verify` does
not return a denial value — the `np.dot` call raises `ValueError` out of
`verify` — but the gate's catch-all handler converts the exception into a
denial (`GATE ERROR`), so the gate fails closed and the protected action is
not invoked. -/
theorem c7_dimension_mismatch_fails_via_exception (thresh age : ℚ)
    (ar sr liveness : Bool) (db : DB) (clock : Option ℚ)
    (u phrase resp : String) (r : Rec) (e wav : List ℚ)
    (embF : List ℚ → Option (List ℚ)) (action : ℕ)
    (hfind : dbFind db u = some r)
    (hlen : r.embed.length ≠ e.length) :
    verify thresh age ar (.ok db) clock sr (some e) u = .error .valueError ∧
    (embF wav = some e →
      gateRun liveness phrase resp (some wav) embF thresh age ar (.ok db) clock sr u action
        = ⟨none, false, true, (if liveness then ["Say: " ++ phrase] else []) ++ ["GATE ERROR"]⟩) := by
  have hv : verify thresh age ar (.ok db) clock sr (some e) u = .error .valueError := by
    simp [verify, hfind, npCosSim, hlen]
  refine ⟨hv, fun hemb => ?_⟩
  simp [gateRun, hemb, hv]

/-- C7 counterexample: stored voiceprint of length 3 against a candidate of
length 2 — `verify` raises `ValueError` instead of returning the
`Denied(DimensionMismatch)` value the claim describes. -/
theorem c7_mismatch_raises_value_error :
    verify (4/5) 60 true (.ok [("lyle", ⟨[1, 2, 3], "2025-01-01", some 0⟩)])
        (some 1000) false (some [1, 2]) "lyle" = .error .valueError := by
  simp [verify, dbFind, npCosSim]

/-- C7 witness: concrete mismatched pair, both conclusions of the amended
theorem evaluated. -/
theorem c7_dimension_mismatch_fails_via_exception_witness :
    verify (4/5) 60 true (.ok [("lyle", ⟨[2, 2], "2025-01-01", some 0⟩)])
        (some 5) false (some [1]) "lyle" = .error .valueError ∧
    gateRun true "p" "r" (some [9]) (fun _ => some [1]) (4/5) 60 true
        (.ok [("lyle", ⟨[2, 2], "2025-01-01", some 0⟩)]) (some 5) false "lyle" (7 : ℕ)
      = ⟨none, false, true, ["Say: p", "GATE ERROR"]⟩ := by
  have h := c7_dimension_mismatch_fails_via_exception (4/5) 60 true false true
    [("lyle", ⟨[2, 2], "2025-01-01", some 0⟩)] (some 5) "lyle" "p" "r"
    ⟨[2, 2], "2025-01-01", some 0⟩ [1] [9] (fun _ => some [1]) 7 rfl (by norm_num)
  exact ⟨h.1, h.2 rfl⟩

/-- C8 (amended): a malformed backing store is silently read as the empty
mapping — `_load_json` catches the parse failure and returns `{}` — so
`list_users` and `delete_user` behave exactly as on an empty store and no
`StorageError` is surfaced to any caller. -/
theorem c8_malformed_store_indistinguishable (u : String) :
    loadJson .malformed = ([] : DB) ∧
    loadJson .malformed = loadJson .missing ∧
    listUsers .malformed = [] ∧
    listUsers .malformed = listUsers (.good []) ∧
    deleteUser .malformed u = (none, .malformed, ["User not found."]) := by
  refine ⟨rfl, rfl, rfl, rfl, ?_⟩
  simp [deleteUser, loadJson, dbFind]

/-- C8 counterexample: listing users over a malformed store yields the same
silent empty answer as listing over a genuinely empty store, with no error —
the claim said the operation fails with a `StorageError`. -/
theorem c8_malformed_store_reads_empty :
    listUsers .malformed = [] ∧ listUsers .malformed = listUsers (.good []) :=
  ⟨rfl, rfl⟩

/-- C9 (amended): `delete_user` has no return statement, so it returns
`None` in every case rather than a boolean; when the identity exists its
record is removed and saved, and when it does not the call is a no-op that
prints a message — not an error. -/
theorem c9_delete_user_returns_none (fs : FileState) (u : String) :
    (deleteUser fs u).1 = none ∧
    (dbFind (loadJson fs) u = none → deleteUser fs u = (none, fs, ["User not found."])) ∧
    (∀ r, dbFind (loadJson fs) u = some r →
      deleteUser fs u = (none, .good (dbErase (loadJson fs) u), ["DELETED: " ++ u])) := by
  rcases h : dbFind (loadJson fs) u with _ | r <;> simp [deleteUser, h]

/-- C9 counterexample: deleting the existing identity `lyle` removes the
record but returns `None`, not the `true` the claim requires. -/
theorem c9_delete_existing_returns_none :
    deleteUser (.good [("lyle", ⟨[1], "2025-01-01", some 0⟩)]) "lyle"
      = (none, .good [], ["DELETED: lyle"]) := rfl

/-- C9 witness: deleting the absent identity `alice` is a no-op returning
`None`, obtained from the amended theorem. -/
theorem c9_delete_user_returns_none_witness :
    deleteUser (.good [("bob", ⟨[1], "2025-01-01", some 0⟩)]) "alice"
      = (none, .good [("bob", ⟨[1], "2025-01-01", some 0⟩)], ["User not found."]) :=
  (c9_delete_user_returns_none (.good [("bob", ⟨[1], "2025-01-01", some 0⟩)]) "alice").2.1 rfl

/-- C10: the bare `except: return True` of `_check_replay` fails open — if
loading the store raises, the check returns `Allowed` for every identity,
window and clock, with no write; and if the store write raises on the update
path, the exception is swallowed and the check still returns `Allowed`. -/
theorem c10_replay_check_fails_open (age t : ℚ) (e : PyErr) (clock : Option ℚ)
    (sr : Bool) (u : String) (db : DB) (r : Rec) :
    checkReplay true age (.error e) clock sr u = (true, none) ∧
    (dbFind db u = some r → ¬(t - r.lastUsed.getD 0 < age) →
      checkReplay true age (.ok db) (some t) true u = (true, none)) := by
  constructor
  · rfl
  · intro hfind hage
    simp [checkReplay, hfind, hage]

/-- C10 witness: a concrete failing write (relational backend raise) on the
update path still yields `Allowed` with no durable write. -/
theorem c10_replay_check_fails_open_witness :
    checkReplay true 60 (.ok [("lyle", ⟨[1], "2025-01-01", some 0⟩)])
        (some 1000) true "lyle" = (true, none) :=
  (c10_replay_check_fails_open 60 1000 .jsonError (some 1000) true "lyle"
      [("lyle", ⟨[1], "2025-01-01", some 0⟩)] ⟨[1], "2025-01-01", some 0⟩).2
    rfl (by norm_num)

end VoiceLock
